import Mathlib

/-!
Shallow embedding of the media catalog service (`app.py`): a Flask app over
a sqlite database with three tables (`media`, `tv_episodes`, `movie_links`),
two authenticated write endpoints (`add_media`, `add_episodes`) and two public
read endpoints (`get_all_media`, `get_media`).

Modelling decisions:
* A JSON request body is modelled as a record of `Option` fields: `none`
  means the key is absent.  Reading a required key of an absent field in
  Python (`episode['video_link']`) raises `KeyError`, which the endpoint's
  catch-all `except Exception` turns into an HTTP 500; we model the raising
  read as `Except String`, where the error value is the missing key's name
  (standing in for Python's `str(e)`).
* The sqlite connection is used as a context manager (`with get_db() as
  conn`), which commits on normal exit and rolls back on an exception; we
  model a request as a pure function `payload → DB → Resp × DB` where the
  error cases return the *original* DB (rollback) and the success case
  returns the updated DB (commit).
* `AUTOINCREMENT` primary keys are modelled by per-table `next…Id` counters
  starting at 1.  The `created_at` column (wall-clock default) appears in no
  claim and is not modelled.
* sqlite's `ORDER BY season_number, episode_number` is modelled by a stable
  sort (`List.insertionSort`) on the lexicographic order of the two keys.
-/

/-- A row of the `media` table (sans `created_at`, see header comment). -/
structure MediaRow where
  id : Nat
  type_ : String
  title : String
  thumbnail_url : Option String
  details : Option String
  release_date : Option String
deriving DecidableEq, Repr

/-- A row of the `tv_episodes` table. -/
structure EpisodeRow where
  id : Nat
  series_id : Nat
  season_number : Int
  episode_number : Int
  title : Option String
  video_link : String
deriving DecidableEq, Repr

/-- A row of the `movie_links` table. -/
structure MovieLinkRow where
  id : Nat
  movie_id : Nat
  resolution : Option String
  video_link : String
deriving DecidableEq, Repr

/-- The sqlite database: three tables plus their `AUTOINCREMENT` counters. -/
structure DB where
  media : List MediaRow
  tv_episodes : List EpisodeRow
  movie_links : List MovieLinkRow
  nextMediaId : Nat
  nextEpisodeId : Nat
  nextLinkId : Nat
deriving DecidableEq, Repr

/-- The freshly initialised database (`init_db` creates empty tables;
`AUTOINCREMENT` ids start at 1). -/
def emptyDB : DB :=
  { media := [], tv_episodes := [], movie_links := []
    nextMediaId := 1, nextEpisodeId := 1, nextLinkId := 1 }

/-- One element of a request's `video_links` array: a JSON object whose keys
may be absent. -/
structure LinkIn where
  resolution : Option String
  video_link : Option String
deriving DecidableEq, Repr

/-- One element of a request's `episodes` array: a JSON object whose keys may
be absent.  Numeric fields are modelled as integers. -/
structure EpisodeIn where
  season_number : Option Int
  episode_number : Option Int
  title : Option String
  video_link : Option String
deriving DecidableEq, Repr

/-- The JSON body of `POST /admin/media`: `none` fields are absent keys. -/
structure MediaPayload where
  type_ : Option String
  title : Option String
  thumbnail_url : Option String
  details : Option String
  release_date : Option String
  video_links : Option (List LinkIn)
  episodes : Option (List EpisodeIn)
deriving DecidableEq, Repr

/-- The JSON body of `POST /admin/media/{id}/episodes`: either not a JSON
array at all, or a (possibly empty) array of episode objects. -/
inductive EpBody where
  | notArray
  | arr (eps : List EpisodeIn)
deriving DecidableEq, Repr

/-- An endpoint response, tagged by its HTTP status class:
`created` ↦ 201 (carrying the new media id for `add_media` and the success
message), `badRequest` ↦ 400, `notFound` ↦ 404, `serverError` ↦ 500. -/
inductive Resp where
  | created (id : Option Nat) (msg : String)
  | badRequest (msg : String)
  | notFound (msg : String)
  | serverError (msg : String)
deriving DecidableEq, Repr

/-- The HTTP status code of a response. -/
def Resp.status : Resp → Nat
  | .created _ _ => 201
  | .badRequest _ => 400
  | .notFound _ => 404
  | .serverError _ => 500

/-- Whether a response is the 201 success response. -/
def Resp.isCreated : Resp → Bool
  | .created _ _ => true
  | _ => false

/-- The loop body of `add_media` over `data['video_links']`: each iteration
reads `link['video_link']` (raising `KeyError` when absent, modelled as
`Except.error` with the key name) and `link.get('resolution')`, and inserts a
`movie_links` row with the next `AUTOINCREMENT` id. -/
def insertLinks (mid : Nat) (nid : Nat) : List LinkIn → Except String (List MovieLinkRow)
  | [] => .ok []
  | l :: ls =>
    match l.video_link with
    | none => .error "video_link"
    | some v => (insertLinks mid (nid + 1) ls).map
        (fun rs => { id := nid, movie_id := mid, resolution := l.resolution,
                     video_link := v } :: rs)

/-- The loop body of `add_media`/`add_episodes` over an episodes array: each
iteration reads `episode['season_number']`, `episode['episode_number']` and
`episode['video_link']` (raising `KeyError` when absent) plus
`episode.get('title')`, and inserts a `tv_episodes` row with the next
`AUTOINCREMENT` id. -/
def insertEpisodes (sid : Nat) (nid : Nat) : List EpisodeIn → Except String (List EpisodeRow)
  | [] => .ok []
  | e :: es =>
    match e.season_number with
    | none => .error "season_number"
    | some sn =>
      match e.episode_number with
      | none => .error "episode_number"
      | some en =>
        match e.video_link with
        | none => .error "video_link"
        | some v => (insertEpisodes sid (nid + 1) es).map
            (fun rs => { id := nid, series_id := sid, season_number := sn,
                         episode_number := en, title := e.title,
                         video_link := v } :: rs)

/-- The `media` row inserted by `add_media` for a validated payload: required
fields are read with `data['…']`, optional ones with `data.get('…')`. -/
def mediaRowOf (data : MediaPayload) (mid : Nat) : MediaRow :=
  { id := mid, type_ := data.type_.getD "", title := data.title.getD "",
    thumbnail_url := data.thumbnail_url, details := data.details,
    release_date := data.release_date }

/-- The child-insert phase of `add_media`, between the media-row insert and
the commit: `if data['type'] == 'movie' and 'video_links' in data: …` walks
the links, `elif data['type'] == 'tvseries' and 'episodes' in data: …` walks
the episodes (`ty` is already validated to be one of the two), otherwise no
child rows.  Returns the rows for both child tables, or the first
`KeyError`. -/
def add_media_children (ty : String) (data : MediaPayload) (db : DB) :
    Except String (List MovieLinkRow × List EpisodeRow) :=
  if ty == "movie" then
    match data.video_links with
    | some links => (insertLinks db.nextMediaId db.nextLinkId links).map (fun ls => (ls, []))
    | none => .ok ([], [])
  else
    match data.episodes with
    | some eps => (insertEpisodes db.nextMediaId db.nextEpisodeId eps).map (fun es => ([], es))
    | none => .ok ([], [])

/-- Endpoint `POST /admin/media` (`add_media` in `app.py`): checks that `type` and
`title` keys are present, that `type` is `movie` or `tvseries`, then inside
one transaction inserts the media row and — strictly type-matched — the
`video_links` rows (only when type is movie and the key is present) or the
`episodes` rows (only when type is tvseries and the key is present).  A
`KeyError` from a child row aborts the transaction: rollback and HTTP 500. -/
def add_media (data : MediaPayload) (db : DB) : Resp × DB :=
  match data.type_, data.title with
  | none, _ => (.badRequest "Missing required fields", db)
  | some _, none => (.badRequest "Missing required fields", db)
  | some ty, some _ =>
    if ty != "movie" && ty != "tvseries" then
      (.badRequest "Invalid media type", db)
    else
      match add_media_children ty data db with
      | .error k => (.serverError k, db)
      | .ok (ls, es) =>
        (.created (some db.nextMediaId) "Media added successfully",
          { media := db.media ++ [mediaRowOf data db.nextMediaId]
            tv_episodes := db.tv_episodes ++ es
            movie_links := db.movie_links ++ ls
            nextMediaId := db.nextMediaId + 1
            nextEpisodeId := db.nextEpisodeId + es.length
            nextLinkId := db.nextLinkId + ls.length })

/-- Endpoint `POST /admin/media/{id}/episodes` (`add_episodes` in `app.py`): rejects a
non-array body, 404s when no media row has the id, 400s when the media is not
a tvseries, then inserts every episode of the array in one transaction; a
`KeyError` rolls the transaction back (HTTP 500).  On success the response
message carries `len(data)`. -/
def add_episodes (media_id : Nat) (body : EpBody) (db : DB) : Resp × DB :=
  match body with
  | .notArray => (.badRequest "Expected array of episodes", db)
  | .arr eps =>
    match db.media.find? (fun r => r.id == media_id) with
    | none => (.notFound "Media not found", db)
    | some m =>
      if m.type_ != "tvseries" then
        (.badRequest "Can only add episodes to TV series", db)
      else
        match insertEpisodes media_id db.nextEpisodeId eps with
        | .error k => (.serverError k, db)
        | .ok es =>
          (.created none (toString eps.length ++ " episodes added successfully"),
            { db with tv_episodes := db.tv_episodes ++ es
                      nextEpisodeId := db.nextEpisodeId + es.length })

/-- Endpoint `GET /media` (`get_all_media` in `app.py`): every `media` row, flat, in
table order; no children attached. -/
def get_all_media (db : DB) : List MediaRow := db.media

/-- One element of the `video_links` array in a `GET /media/{id}` response:
the `SELECT resolution, video_link` projection. -/
structure LinkView where
  resolution : Option String
  video_link : String
deriving DecidableEq, Repr

/-- One element of the `episodes` array in a `GET /media/{id}` response: the
`SELECT season_number, episode_number, title, video_link` projection. -/
structure EpView where
  season_number : Int
  episode_number : Int
  title : Option String
  video_link : String
deriving DecidableEq, Repr

/-- The `ORDER BY season_number, episode_number` comparison on projected
episode rows. -/
def epLe (a b : EpView) : Prop :=
  a.season_number < b.season_number ∨
    (a.season_number = b.season_number ∧ a.episode_number ≤ b.episode_number)

instance : DecidableRel epLe := fun a b => by unfold epLe; infer_instance

instance : IsTotal EpView epLe := ⟨fun a b => by unfold epLe; omega⟩

instance : IsTrans EpView epLe := ⟨fun a b c => by unfold epLe; omega⟩

/-- The body of a successful `GET /media/{id}` response: the flat media row
plus exactly one of the two child collections (`none` = key absent). -/
structure MediaView where
  media : MediaRow
  video_links : Option (List LinkView)
  episodes : Option (List EpView)
deriving DecidableEq, Repr

/-- Endpoint `GET /media/{id}` (`get_media` in `app.py`): `none` models the 404
`Media not found` response.  For a movie the `movie_links` rows of the id are
projected in table order; otherwise the `tv_episodes` rows of the id are
projected and sorted by `(season_number, episode_number)`. -/
def get_media (media_id : Nat) (db : DB) : Option MediaView :=
  match db.media.find? (fun r => r.id == media_id) with
  | none => none
  | some m =>
    if m.type_ == "movie" then
      some { media := m
             video_links := some (((db.movie_links.filter
                 (fun l => l.movie_id == media_id)).map
               (fun l => { resolution := l.resolution, video_link := l.video_link })))
             episodes := none }
    else
      some { media := m
             video_links := none
             episodes := some (List.insertionSort epLe
               ((db.tv_episodes.filter (fun e => e.series_id == media_id)).map
                 (fun e => { season_number := e.season_number
                             episode_number := e.episode_number
                             title := e.title, video_link := e.video_link }))) }

/-- An episode object carries every field whose absence would raise
`KeyError` in the insert loop. -/
def episodeComplete (e : EpisodeIn) : Bool :=
  e.season_number.isSome && e.episode_number.isSome && e.video_link.isSome

/-- A link object carries the `video_link` field whose absence would raise
`KeyError` in the insert loop. -/
def linkComplete (l : LinkIn) : Bool :=
  l.video_link.isSome

/-- The payload passes `add_media`'s explicit validation: `type` and `title`
keys present and `type` in the allowed set. -/
def basicValid (data : MediaPayload) : Bool :=
  data.type_.isSome && data.title.isSome &&
    (data.type_ == some "movie" || data.type_ == some "tvseries")

/-- The payload's type-matched child array (the one the insert loop will
walk) contains an object missing a required key. -/
def matchedChildBad (data : MediaPayload) : Bool :=
  (data.type_ == some "movie" &&
    (match data.video_links with
     | some links => links.any (fun l => !(linkComplete l))
     | none => false)) ||
  (data.type_ == some "tvseries" &&
    (match data.episodes with
     | some eps => eps.any (fun e => !(episodeComplete e))
     | none => false))

/-- Well-formedness of a database state: every stored id and foreign key is
below the `media` table's `AUTOINCREMENT` counter, so `nextMediaId` is fresh.
Holds of `emptyDB` and is preserved by every endpoint. -/
def DB.wf (db : DB) : Prop :=
  (∀ r ∈ db.media, r.id < db.nextMediaId) ∧
  (∀ e ∈ db.tv_episodes, e.series_id < db.nextMediaId) ∧
  (∀ l ∈ db.movie_links, l.movie_id < db.nextMediaId)

instance (db : DB) : Decidable db.wf := by unfold DB.wf; infer_instance

/-- Predicate: `movie_links` row `r` is exactly what inserting input object `l` under
movie `mid` stores. -/
def linkRowMatches (mid : Nat) (l : LinkIn) (r : MovieLinkRow) : Prop :=
  r.movie_id = mid ∧ r.resolution = l.resolution ∧ l.video_link = some r.video_link

/-- Predicate: `tv_episodes` row `r` is exactly what inserting input object `e` under
series `sid` stores. -/
def epRowMatches (sid : Nat) (e : EpisodeIn) (r : EpisodeRow) : Prop :=
  r.series_id = sid ∧ e.season_number = some r.season_number ∧
    e.episode_number = some r.episode_number ∧ r.title = e.title ∧
    e.video_link = some r.video_link

/-- The child rows committed by a successful `add_media` correspond
one-to-one, in order, to the type-matched input array (and the mismatched
table gains nothing). -/
def matchedChildrenSpec (data : MediaPayload) (mid : Nat)
    (ls : List MovieLinkRow) (es : List EpisodeRow) : Prop :=
  (data.type_ = some "movie" →
    es = [] ∧
      match data.video_links with
      | some links => List.Forall₂ (linkRowMatches mid) links ls
      | none => ls = []) ∧
  (data.type_ = some "tvseries" →
    ls = [] ∧
      match data.episodes with
      | some eps => List.Forall₂ (epRowMatches mid) eps es
      | none => es = [])

/-! ### Concrete fixtures used by witnesses and counterexamples -/

/-- A database holding one tvseries (id 1) and nothing else. -/
def dbSeries : DB :=
  { media := [{ id := 1, type_ := "tvseries", title := "S", thumbnail_url := none,
                details := none, release_date := none }]
    tv_episodes := [], movie_links := []
    nextMediaId := 2, nextEpisodeId := 1, nextLinkId := 1 }

/-- A database holding one movie (id 1) and nothing else. -/
def dbMovie : DB :=
  { media := [{ id := 1, type_ := "movie", title := "M", thumbnail_url := none,
                details := none, release_date := none }]
    tv_episodes := [], movie_links := []
    nextMediaId := 2, nextEpisodeId := 1, nextLinkId := 1 }

/-- An episode object with the required `video_link` key absent. -/
def epMissingLink : EpisodeIn :=
  { season_number := some 1, episode_number := some 1, title := none, video_link := none }

/-- A complete episode object with nonpositive season and episode numbers. -/
def zeroEp : EpisodeIn :=
  { season_number := some 0, episode_number := some (-1), title := none,
    video_link := some "http" }

/-- A tvseries creation payload whose single episode lacks `video_link`. -/
def badEpisodePayload : MediaPayload :=
  { type_ := some "tvseries", title := some "X", thumbnail_url := none,
    details := none, release_date := none, video_links := none,
    episodes := some [epMissingLink] }

/-- Two complete episode objects, deliberately out of order. -/
def twoEps : List EpisodeIn :=
  [{ season_number := some 2, episode_number := some 1, title := none,
     video_link := some "b" },
   { season_number := some 1, episode_number := some 5, title := some "pilot",
     video_link := some "a" }]

/-- A valid tvseries creation payload with two episodes out of order. -/
def twoEpsPayload : MediaPayload :=
  { type_ := some "tvseries", title := some "T", thumbnail_url := none,
    details := none, release_date := none, video_links := none,
    episodes := some twoEps }

/-- Two complete link objects. -/
def twoLinks : List LinkIn :=
  [{ resolution := some "1080p", video_link := some "u1" },
   { resolution := none, video_link := some "u2" }]

/-- A valid movie creation payload with two links. -/
def movieLinksPayload : MediaPayload :=
  { type_ := some "movie", title := some "M", thumbnail_url := none,
    details := none, release_date := none,
    video_links := some twoLinks
    episodes := none }

/-- A tvseries creation payload that also carries a (malformed) `video_links`
array — the mismatched array for the movie table. -/
def mismatchedSeriesPayload : MediaPayload :=
  { type_ := some "tvseries", title := some "T", thumbnail_url := none,
    details := none, release_date := none,
    video_links := some [{ resolution := none, video_link := none }]
    episodes := none }

/-- A creation payload whose `type` is outside the allowed set. -/
def wrongTypePayload : MediaPayload :=
  { type_ := some "podcast", title := some "P", thumbnail_url := none,
    details := none, release_date := none, video_links := none, episodes := none }

/-- A valid tvseries creation payload whose single episode has nonpositive
season and episode numbers. -/
def zeroEpPayload : MediaPayload :=
  { type_ := some "tvseries", title := some "Z", thumbnail_url := none,
    details := none, release_date := none, video_links := none,
    episodes := some [zeroEp] }

/-! ### Helper lemmas about the insert loops -/

theorem insertEpisodes_ok (sid : Nat) (eps : List EpisodeIn) :
    ∀ nid, (∀ e ∈ eps, episodeComplete e = true) →
      ∃ es, insertEpisodes sid nid eps = .ok es ∧
        List.Forall₂ (epRowMatches sid) eps es := by
  induction eps with
  | nil => exact fun nid _ => ⟨[], rfl, List.Forall₂.nil⟩
  | cons e es ih =>
    intro nid h
    have hc : episodeComplete e = true := h e (by simp)
    rw [episodeComplete, Bool.and_eq_true, Bool.and_eq_true] at hc
    obtain ⟨⟨h1, h2⟩, h3⟩ := hc
    obtain ⟨sn, hsn⟩ := Option.isSome_iff_exists.mp h1
    obtain ⟨en, hen⟩ := Option.isSome_iff_exists.mp h2
    obtain ⟨v, hv⟩ := Option.isSome_iff_exists.mp h3
    obtain ⟨rs, hrs, hf⟩ := ih (nid + 1) (fun x hx => h x (by simp [hx]))
    refine ⟨{ id := nid, series_id := sid, season_number := sn, episode_number := en,
              title := e.title, video_link := v } :: rs, ?_, ?_⟩
    · simp only [insertEpisodes, hsn, hen, hv, hrs, Except.map]
    · exact List.Forall₂.cons ⟨rfl, hsn, hen, rfl, hv⟩ hf

theorem insertEpisodes_err (sid : Nat) (eps : List EpisodeIn) :
    ∀ nid, (∃ e ∈ eps, episodeComplete e = false) →
      ∃ k, insertEpisodes sid nid eps = .error k := by
  induction eps with
  | nil => rintro nid ⟨e, he, -⟩; cases he
  | cons e es ih =>
    rintro nid ⟨x, hx, hbad⟩
    cases hsn : e.season_number with
    | none => exact ⟨"season_number", by simp only [insertEpisodes, hsn]⟩
    | some sn =>
      cases hen : e.episode_number with
      | none => exact ⟨"episode_number", by simp only [insertEpisodes, hsn, hen]⟩
      | some en =>
        cases hv : e.video_link with
        | none => exact ⟨"video_link", by simp only [insertEpisodes, hsn, hen, hv]⟩
        | some v =>
          have hce : episodeComplete e = true := by
            simp [episodeComplete, hsn, hen, hv]
          rcases List.mem_cons.mp hx with rfl | hx'
          · rw [hce] at hbad; cases hbad
          · obtain ⟨k, hk⟩ := ih (nid + 1) ⟨x, hx', hbad⟩
            exact ⟨k, by simp only [insertEpisodes, hsn, hen, hv, hk, Except.map]⟩

theorem insertEpisodes_ok_inv (sid : Nat) (eps : List EpisodeIn) :
    ∀ nid es, insertEpisodes sid nid eps = .ok es →
      List.Forall₂ (epRowMatches sid) eps es := by
  induction eps with
  | nil =>
    intro nid es h
    rw [insertEpisodes] at h
    cases h
    exact List.Forall₂.nil
  | cons e es' ih =>
    intro nid rs h
    rw [insertEpisodes] at h
    cases hsn : e.season_number with
    | none => rw [hsn] at h; cases h
    | some sn =>
      cases hen : e.episode_number with
      | none => rw [hsn, hen] at h; cases h
      | some en =>
        cases hv : e.video_link with
        | none => rw [hsn, hen, hv] at h; cases h
        | some v =>
          rw [hsn, hen, hv] at h
          cases hrec : insertEpisodes sid (nid + 1) es' with
          | error k => rw [hrec] at h; cases h
          | ok rs' =>
            rw [hrec] at h
            simp only [Except.map] at h
            cases h
            exact List.Forall₂.cons ⟨rfl, hsn, hen, rfl, hv⟩ (ih (nid + 1) rs' hrec)

theorem insertLinks_ok (mid : Nat) (links : List LinkIn) :
    ∀ nid, (∀ l ∈ links, linkComplete l = true) →
      ∃ ls, insertLinks mid nid links = .ok ls ∧
        List.Forall₂ (linkRowMatches mid) links ls := by
  induction links with
  | nil => exact fun nid _ => ⟨[], rfl, List.Forall₂.nil⟩
  | cons l ls ih =>
    intro nid h
    have hc : linkComplete l = true := h l (by simp)
    rw [linkComplete] at hc
    obtain ⟨v, hv⟩ := Option.isSome_iff_exists.mp hc
    obtain ⟨rs, hrs, hf⟩ := ih (nid + 1) (fun x hx => h x (by simp [hx]))
    refine ⟨{ id := nid, movie_id := mid, resolution := l.resolution,
              video_link := v } :: rs, ?_, ?_⟩
    · simp only [insertLinks, hv, hrs, Except.map]
    · exact List.Forall₂.cons ⟨rfl, rfl, hv⟩ hf

theorem insertLinks_err (mid : Nat) (links : List LinkIn) :
    ∀ nid, (∃ l ∈ links, linkComplete l = false) →
      ∃ k, insertLinks mid nid links = .error k := by
  induction links with
  | nil => rintro nid ⟨l, hl, -⟩; cases hl
  | cons l ls ih =>
    rintro nid ⟨x, hx, hbad⟩
    cases hv : l.video_link with
    | none => exact ⟨"video_link", by simp only [insertLinks, hv]⟩
    | some v =>
      have hcl : linkComplete l = true := by simp [linkComplete, hv]
      rcases List.mem_cons.mp hx with rfl | hx'
      · rw [hcl] at hbad; cases hbad
      · obtain ⟨k, hk⟩ := ih (nid + 1) ⟨x, hx', hbad⟩
        exact ⟨k, by simp only [insertLinks, hv, hk, Except.map]⟩

theorem insertLinks_ok_inv (mid : Nat) (links : List LinkIn) :
    ∀ nid ls, insertLinks mid nid links = .ok ls →
      List.Forall₂ (linkRowMatches mid) links ls := by
  induction links with
  | nil =>
    intro nid ls h
    rw [insertLinks] at h
    cases h
    exact List.Forall₂.nil
  | cons l ls' ih =>
    intro nid rs h
    rw [insertLinks] at h
    cases hv : l.video_link with
    | none => rw [hv] at h; cases h
    | some v =>
      rw [hv] at h
      cases hrec : insertLinks mid (nid + 1) ls' with
      | error k => rw [hrec] at h; cases h
      | ok rs' =>
        rw [hrec] at h
        simp only [Except.map] at h
        cases h
        exact List.Forall₂.cons ⟨rfl, rfl, hv⟩ (ih (nid + 1) rs' hrec)

theorem epRows_series_id {sid : Nat} {eps : List EpisodeIn} {es : List EpisodeRow}
    (h : List.Forall₂ (epRowMatches sid) eps es) : ∀ r ∈ es, r.series_id = sid := by
  induction h with
  | nil => intro r hr; cases hr
  | cons h1 _ ih =>
    intro r hr
    rcases List.mem_cons.mp hr with rfl | hr'
    · exact h1.1
    · exact ih r hr'

theorem linkRows_movie_id {mid : Nat} {links : List LinkIn} {ls : List MovieLinkRow}
    (h : List.Forall₂ (linkRowMatches mid) links ls) : ∀ r ∈ ls, r.movie_id = mid := by
  induction h with
  | nil => intro r hr; cases hr
  | cons h1 _ ih =>
    intro r hr
    rcases List.mem_cons.mp hr with rfl | hr'
    · exact h1.1
    · exact ih r hr'

/-! ### Helper lemmas about well-formed databases and `add_media` -/

theorem wf_find_fresh (db : DB) (h : db.wf) :
    db.media.find? (fun r => r.id == db.nextMediaId) = none := by
  rw [List.find?_eq_none]
  intro r hr hc
  have := h.1 r hr
  simp only [beq_iff_eq] at hc
  omega

theorem find_new_media (db : DB) (row : MediaRow) (h : db.wf)
    (hid : row.id = db.nextMediaId) :
    (db.media ++ [row]).find? (fun r => r.id == db.nextMediaId) = some row := by
  rw [List.find?_append, wf_find_fresh db h]
  simp [List.find?, hid]

theorem wf_eps_filter (db : DB) (h : db.wf) {es : List EpisodeRow}
    (hall : ∀ r ∈ es, r.series_id = db.nextMediaId) :
    (db.tv_episodes ++ es).filter (fun e => e.series_id == db.nextMediaId) = es := by
  rw [List.filter_append]
  have h1 : db.tv_episodes.filter (fun e => e.series_id == db.nextMediaId) = [] := by
    rw [List.filter_eq_nil_iff]
    intro e he hc
    have := h.2.1 e he
    simp only [beq_iff_eq] at hc
    omega
  have h2 : es.filter (fun e => e.series_id == db.nextMediaId) = es := by
    rw [List.filter_eq_self]
    intro r hr
    simp [hall r hr]
  rw [h1, h2, List.nil_append]

theorem wf_links_filter (db : DB) (h : db.wf) {ls : List MovieLinkRow}
    (hall : ∀ r ∈ ls, r.movie_id = db.nextMediaId) :
    (db.movie_links ++ ls).filter (fun l => l.movie_id == db.nextMediaId) = ls := by
  rw [List.filter_append]
  have h1 : db.movie_links.filter (fun l => l.movie_id == db.nextMediaId) = [] := by
    rw [List.filter_eq_nil_iff]
    intro l hl hc
    have := h.2.2 l hl
    simp only [beq_iff_eq] at hc
    omega
  have h2 : ls.filter (fun l => l.movie_id == db.nextMediaId) = ls := by
    rw [List.filter_eq_self]
    intro r hr
    simp [hall r hr]
  rw [h1, h2, List.nil_append]

theorem add_media_children_movie (data : MediaPayload) (db : DB) :
    add_media_children "movie" data db =
      match data.video_links with
      | some links => (insertLinks db.nextMediaId db.nextLinkId links).map (fun ls => (ls, []))
      | none => .ok ([], []) := rfl

theorem add_media_children_tv (data : MediaPayload) (db : DB) :
    add_media_children "tvseries" data db =
      match data.episodes with
      | some eps => (insertEpisodes db.nextMediaId db.nextEpisodeId eps).map (fun es => ([], es))
      | none => .ok ([], []) := rfl

theorem add_media_valid_eq (data : MediaPayload) (db : DB) (ty ti : String)
    (hty : data.type_ = some ty) (hti : data.title = some ti)
    (hv : ty = "movie" ∨ ty = "tvseries") :
    add_media data db =
      match add_media_children ty data db with
      | .error k => (.serverError k, db)
      | .ok (ls, es) =>
        (.created (some db.nextMediaId) "Media added successfully",
          { media := db.media ++ [mediaRowOf data db.nextMediaId]
            tv_episodes := db.tv_episodes ++ es
            movie_links := db.movie_links ++ ls
            nextMediaId := db.nextMediaId + 1
            nextEpisodeId := db.nextEpisodeId + es.length
            nextLinkId := db.nextLinkId + ls.length }) := by
  simp only [add_media, hty, hti]
  rw [if_neg (by rcases hv with rfl | rfl <;> decide)]

theorem add_media_children_bad (ty : String) (data : MediaPayload) (db : DB)
    (hty : data.type_ = some ty) (hbad : matchedChildBad data = true) :
    ∃ k, add_media_children ty data db = .error k := by
  rw [matchedChildBad, Bool.or_eq_true] at hbad
  rcases hbad with hm | hs
  · rw [Bool.and_eq_true] at hm
    obtain ⟨hm1, hm2⟩ := hm
    have h1 : data.type_ = some "movie" := by simpa using hm1
    rw [hty] at h1
    injection h1 with h1
    subst h1
    cases hvl : data.video_links with
    | none => rw [hvl] at hm2; cases hm2
    | some links =>
      simp only [hvl] at hm2
      obtain ⟨l, hl, hlb⟩ := List.any_eq_true.mp hm2
      obtain ⟨k, hk⟩ := insertLinks_err db.nextMediaId links db.nextLinkId
        ⟨l, hl, by simpa using hlb⟩
      refine ⟨k, ?_⟩
      rw [add_media_children_movie]
      simp only [hvl, hk, Except.map]
  · rw [Bool.and_eq_true] at hs
    obtain ⟨hs1, hs2⟩ := hs
    have h1 : data.type_ = some "tvseries" := by simpa using hs1
    rw [hty] at h1
    injection h1 with h1
    subst h1
    cases heps : data.episodes with
    | none => rw [heps] at hs2; cases hs2
    | some eps =>
      simp only [heps] at hs2
      obtain ⟨e, he, heb⟩ := List.any_eq_true.mp hs2
      obtain ⟨k, hk⟩ := insertEpisodes_err db.nextMediaId eps db.nextEpisodeId
        ⟨e, he, by simpa using heb⟩
      refine ⟨k, ?_⟩
      rw [add_media_children_tv]
      simp only [heps, hk, Except.map]

theorem add_media_children_spec (ty : String) (data : MediaPayload) (db : DB)
    (ls : List MovieLinkRow) (es : List EpisodeRow)
    (hty : data.type_ = some ty) (hv : ty = "movie" ∨ ty = "tvseries")
    (h : add_media_children ty data db = .ok (ls, es)) :
    matchedChildrenSpec data db.nextMediaId ls es := by
  constructor
  · intro hm
    rw [hty] at hm
    injection hm with hm
    subst hm
    rw [add_media_children_movie] at h
    cases hvl : data.video_links with
    | none =>
      simp only [hvl] at h ⊢
      injection h with h
      injection h with h1 h2
      exact ⟨h2.symm, h1.symm⟩
    | some links =>
      simp only [hvl] at h ⊢
      cases hins : insertLinks db.nextMediaId db.nextLinkId links with
      | error k => exact Except.noConfusion (by simpa only [hins, Except.map] using h)
      | ok rs =>
        simp only [hins, Except.map] at h
        injection h with h
        injection h with h1 h2
        subst h1
        exact ⟨h2.symm, insertLinks_ok_inv _ _ _ _ hins⟩
  · intro hm
    rw [hty] at hm
    injection hm with hm
    subst hm
    rw [add_media_children_tv] at h
    cases heps : data.episodes with
    | none =>
      simp only [heps] at h ⊢
      injection h with h
      injection h with h1 h2
      exact ⟨h1.symm, h2.symm⟩
    | some eps =>
      simp only [heps] at h ⊢
      cases hins : insertEpisodes db.nextMediaId db.nextEpisodeId eps with
      | error k => exact Except.noConfusion (by simpa only [hins, Except.map] using h)
      | ok rs =>
        simp only [hins, Except.map] at h
        injection h with h
        injection h with h1 h2
        subst h2
        exact ⟨h1.symm, insertEpisodes_ok_inv _ _ _ _ hins⟩

/-! ### Claim theorems -/

/-- C6: for every `add_media` payload whose `type` key is present but not
exactly `movie` or `tvseries`, the endpoint answers with a 400 validation
error, the database is completely unchanged, and therefore a subsequent
`GET /media` listing (and its count) is the same as before. -/
theorem add_media_invalid_type (data : MediaPayload) (db : DB) (ty : String)
    (hty : data.type_ = some ty) (h1 : ty ≠ "movie") (h2 : ty ≠ "tvseries") :
    (add_media data db).1.status = 400 ∧ (add_media data db).2 = db ∧
      get_all_media (add_media data db).2 = get_all_media db ∧
      (get_all_media (add_media data db).2).length = (get_all_media db).length := by
  have hmain : ∃ msg, add_media data db = (.badRequest msg, db) := by
    cases hti : data.title with
    | none =>
      refine ⟨"Missing required fields", ?_⟩
      simp only [add_media, hty, hti]
    | some ti =>
      refine ⟨"Invalid media type", ?_⟩
      simp only [add_media, hty, hti]
      rw [if_pos]
      simp [h1, h2]
  obtain ⟨msg, hmain⟩ := hmain
  rw [hmain]
  exact ⟨rfl, rfl, rfl, rfl⟩

/-- Witness for C6 at a concrete input: type `podcast` is rejected with 400
and the empty database stays empty. -/
theorem add_media_invalid_type_witness :
    (add_media wrongTypePayload emptyDB).1.status = 400 ∧
      (add_media wrongTypePayload emptyDB).2 = emptyDB ∧
      get_all_media (add_media wrongTypePayload emptyDB).2 = get_all_media emptyDB ∧
      (get_all_media (add_media wrongTypePayload emptyDB).2).length =
        (get_all_media emptyDB).length :=
  add_media_invalid_type wrongTypePayload emptyDB "podcast" rfl
    (by decide) (by decide)

/-- C3: calling `add_episodes` with a well-formed array body answers 404 and leaves
the database unchanged (no episode rows persisted) when no media row has the
id, and answers 400 and leaves the database unchanged when the media row
exists but is not a tvseries (e.g. a movie). -/
theorem add_episodes_preconditions (mid : Nat) (eps : List EpisodeIn) (db : DB) :
    (db.media.find? (fun r => r.id == mid) = none →
      add_episodes mid (.arr eps) db = (.notFound "Media not found", db) ∧
        (Resp.notFound "Media not found").status = 404) ∧
    (∀ m, db.media.find? (fun r => r.id == mid) = some m → m.type_ ≠ "tvseries" →
      add_episodes mid (.arr eps) db =
          (.badRequest "Can only add episodes to TV series", db) ∧
        (Resp.badRequest "Can only add episodes to TV series").status = 400) := by
  constructor
  · intro h
    refine ⟨?_, rfl⟩
    simp only [add_episodes, h]
  · intro m hm hty
    refine ⟨?_, rfl⟩
    simp only [add_episodes, hm]
    rw [if_pos]
    simp [hty]

/-- Witness for C3 at concrete inputs: a nonexistent id on the empty
database gives 404, and the movie in `dbMovie` gives 400; both leave the
database unchanged. -/
theorem add_episodes_preconditions_witness :
    (add_episodes 7 (.arr []) emptyDB = (.notFound "Media not found", emptyDB) ∧
      (Resp.notFound "Media not found").status = 404) ∧
    (add_episodes 1 (.arr [zeroEp]) dbMovie =
        (.badRequest "Can only add episodes to TV series", dbMovie) ∧
      (Resp.badRequest "Can only add episodes to TV series").status = 400) :=
  ⟨(add_episodes_preconditions 7 [] emptyDB).1 rfl,
   (add_episodes_preconditions 1 [zeroEp] dbMovie).2
     { id := 1, type_ := "movie", title := "M", thumbnail_url := none,
       details := none, release_date := none }
     (by decide) (by decide)⟩

/-- C10: `add_episodes` — whatever its body and outcome — leaves the `media`
table, the `movie_links` table and their id counters unchanged; its only
possible effect is appending rows to `tv_episodes`. -/
theorem add_episodes_frame (mid : Nat) (body : EpBody) (db : DB) :
    (add_episodes mid body db).2.media = db.media ∧
    (add_episodes mid body db).2.movie_links = db.movie_links ∧
    (add_episodes mid body db).2.nextMediaId = db.nextMediaId ∧
    (add_episodes mid body db).2.nextLinkId = db.nextLinkId ∧
    ∃ es, (add_episodes mid body db).2.tv_episodes = db.tv_episodes ++ es := by
  cases body with
  | notArray => exact ⟨rfl, rfl, rfl, rfl, [], (List.append_nil _).symm⟩
  | arr eps =>
    cases hfind : db.media.find? (fun r => r.id == mid) with
    | none => refine ⟨?_, ?_, ?_, ?_, [], ?_⟩ <;> simp [add_episodes, hfind]
    | some m =>
      by_cases hty : (m.type_ != "tvseries") = true
      · refine ⟨?_, ?_, ?_, ?_, [], ?_⟩ <;> simp [add_episodes, hfind, hty]
      · cases hins : insertEpisodes mid db.nextEpisodeId eps with
        | error k =>
          refine ⟨?_, ?_, ?_, ?_, [], ?_⟩ <;> simp [add_episodes, hfind, hty, hins]
        | ok es =>
          refine ⟨?_, ?_, ?_, ?_, es, ?_⟩ <;> simp [add_episodes, hfind, hty, hins]

/-- C7 counterexample: an *empty* array body is accepted, not rejected — on
the database holding tvseries 1, `add_episodes 1 []` answers 201 with
"0 episodes added successfully" and commits (vacuously) instead of returning
an error. -/
theorem add_episodes_empty_accepted :
    add_episodes 1 (.arr []) dbSeries =
      (.created none "0 episodes added successfully", dbSeries) ∧
    (add_episodes 1 (.arr []) dbSeries).1.isCreated = true ∧
    (add_episodes 1 (.arr []) dbSeries).1.status = 201 := by
  refine ⟨?_, ?_, ?_⟩ <;> decide

/-- C7 amended: a non-array body yields the 400 `Expected array of episodes`
response with the database unchanged, but an array body is *not* required to
be non-empty — any array (including the empty one) whose episodes all carry
their required fields succeeds, and the response reports the array's length,
which equals the number of inserted rows. -/
theorem add_episodes_array_semantics (mid : Nat) (db : DB) :
    (add_episodes mid .notArray db = (.badRequest "Expected array of episodes", db)) ∧
    (∀ eps m, db.media.find? (fun r => r.id == mid) = some m → m.type_ = "tvseries" →
      (∀ e ∈ eps, episodeComplete e = true) →
      ∃ db', add_episodes mid (.arr eps) db =
          (.created none (toString eps.length ++ " episodes added successfully"), db') ∧
        db'.tv_episodes.length = db.tv_episodes.length + eps.length) := by
  constructor
  · rfl
  · intro eps m hm htv hc
    obtain ⟨es, hins, hf⟩ := insertEpisodes_ok mid eps db.nextEpisodeId hc
    refine ⟨{ db with tv_episodes := db.tv_episodes ++ es,
                      nextEpisodeId := db.nextEpisodeId + es.length }, ?_, ?_⟩
    · simp only [add_episodes, hm, hins]
      rw [if_neg (by simp [htv])]
    · simp only [List.length_append]
      rw [hf.length_eq]

/-- Witness for C7's amended theorem: the non-array rejection on the empty
database, and a one-episode insert into `dbSeries` reporting count 1. -/
theorem add_episodes_array_semantics_witness :
    (add_episodes 3 .notArray emptyDB =
      (.badRequest "Expected array of episodes", emptyDB)) ∧
    (∃ db', add_episodes 1 (.arr [zeroEp]) dbSeries =
        (.created none (toString (List.length [zeroEp]) ++ " episodes added successfully"), db') ∧
      db'.tv_episodes.length = dbSeries.tv_episodes.length + (List.length [zeroEp])) :=
  ⟨(add_episodes_array_semantics 3 emptyDB).1,
   (add_episodes_array_semantics 1 dbSeries).2 [zeroEp]
     { id := 1, type_ := "tvseries", title := "S", thumbnail_url := none,
       details := none, release_date := none }
     (by decide) rfl (by decide)⟩

/-- C2 counterexample: the payload `badEpisodePayload` passes the type/title validation
but its episode omits `video_link`; the request is answered with the 500
server error (catch-all `except`), not with a 400 validation error. -/
theorem missing_child_field_cex :
    (add_media badEpisodePayload emptyDB).1 = .serverError "video_link" ∧
    (add_media badEpisodePayload emptyDB).1.status = 500 ∧
    ((add_media badEpisodePayload emptyDB).1.status = 400 → False) := by
  refine ⟨?_, ?_, ?_⟩ <;> decide

/-- C2 amended: an `add_media` request that passes the type/title validation
but whose type-matched child array contains an object missing a required
key fails with the generic 500 storage error and a full rollback — and the
same holds for an `add_episodes` request on an existing tvseries whose array
contains an incomplete episode.  Neither case produces a 400. -/
theorem missing_child_field_is_500 :
    (∀ data db, basicValid data = true → matchedChildBad data = true →
      ∃ k, add_media data db = (.serverError k, db) ∧
        (Resp.serverError k).status = 500) ∧
    (∀ mid eps db m, db.media.find? (fun r => r.id == mid) = some m →
      m.type_ = "tvseries" → (∃ e ∈ eps, episodeComplete e = false) →
      ∃ k, add_episodes mid (.arr eps) db = (.serverError k, db) ∧
        (Resp.serverError k).status = 500) := by
  constructor
  · intro data db hb hbad
    rw [basicValid, Bool.and_eq_true, Bool.and_eq_true, Bool.or_eq_true] at hb
    obtain ⟨⟨hty1, hti1⟩, hty2⟩ := hb
    obtain ⟨ti, hti⟩ := Option.isSome_iff_exists.mp hti1
    have hv : ∃ ty, data.type_ = some ty ∧ (ty = "movie" ∨ ty = "tvseries") := by
      rcases hty2 with h | h
      · exact ⟨"movie", by simpa using h, Or.inl rfl⟩
      · exact ⟨"tvseries", by simpa using h, Or.inr rfl⟩
    obtain ⟨ty, hty, hv⟩ := hv
    obtain ⟨k, hk⟩ := add_media_children_bad ty data db hty hbad
    refine ⟨k, ?_, rfl⟩
    rw [add_media_valid_eq data db ty ti hty hti hv, hk]
  · intro mid eps db m hm htv hbad
    obtain ⟨k, hk⟩ := insertEpisodes_err mid eps db.nextEpisodeId hbad
    refine ⟨k, ?_, rfl⟩
    simp only [add_episodes, hm, hk]
    rw [if_neg (by simp [htv])]

/-- Witness for C2's amended theorem at concrete inputs: the bad tvseries
payload on the empty database, and a bad episode appended to `dbSeries`. -/
theorem missing_child_field_is_500_witness :
    (∃ k, add_media badEpisodePayload emptyDB = (.serverError k, emptyDB) ∧
      (Resp.serverError k).status = 500) ∧
    (∃ k, add_episodes 1 (.arr [epMissingLink]) dbSeries = (.serverError k, dbSeries) ∧
      (Resp.serverError k).status = 500) :=
  ⟨missing_child_field_is_500.1 badEpisodePayload emptyDB (by decide) (by decide),
   missing_child_field_is_500.2 1 [epMissingLink] dbSeries
     { id := 1, type_ := "tvseries", title := "S", thumbnail_url := none,
       details := none, release_date := none }
     (by decide) rfl ⟨epMissingLink, by decide, by decide⟩⟩

/-- C9 counterexample: a zero season number and a negative episode number
are accepted and persisted verbatim — `add_episodes` with `zeroEp` on
`dbSeries` succeeds and stores the row `(season 0, episode -1)`. -/
theorem nonpositive_episode_cex :
    (add_episodes 1 (.arr [zeroEp]) dbSeries).1.isCreated = true ∧
    (add_episodes 1 (.arr [zeroEp]) dbSeries).2.tv_episodes =
      [{ id := 1, series_id := 1, season_number := 0, episode_number := -1,
         title := none, video_link := "http" }] := by
  refine ⟨?_, ?_⟩ <;> decide

/-- C9 amended: the code requires `season_number`, `episode_number` and
`video_link` to be *present* (a missing one aborts the request with a 500),
but enforces no positivity: every persisted episode row carries exactly the
supplied integers, so zero or negative season/episode numbers are stored —
via `add_episodes` and likewise via `add_media` with initial episodes. -/
theorem episodes_persist_verbatim :
    (∀ mid eps db m, db.media.find? (fun r => r.id == mid) = some m →
      m.type_ = "tvseries" → (∀ e ∈ eps, episodeComplete e = true) →
      ∃ es, (add_episodes mid (.arr eps) db).2.tv_episodes = db.tv_episodes ++ es ∧
        List.Forall₂ (epRowMatches mid) eps es) ∧
    (∀ data db eps ti, data.type_ = some "tvseries" → data.title = some ti →
      data.episodes = some eps → (∀ e ∈ eps, episodeComplete e = true) →
      ∃ es, (add_media data db).2.tv_episodes = db.tv_episodes ++ es ∧
        List.Forall₂ (epRowMatches db.nextMediaId) eps es) := by
  constructor
  · intro mid eps db m hm htv hc
    obtain ⟨es, hins, hf⟩ := insertEpisodes_ok mid eps db.nextEpisodeId hc
    refine ⟨es, ?_, hf⟩
    simp only [add_episodes, hm, hins]
    rw [if_neg (by simp [htv])]
  · intro data db eps ti hty hti heps hc
    obtain ⟨es, hins, hf⟩ := insertEpisodes_ok db.nextMediaId eps db.nextEpisodeId hc
    refine ⟨es, ?_, hf⟩
    rw [add_media_valid_eq data db "tvseries" ti hty hti (Or.inr rfl),
        add_media_children_tv]
    simp only [heps, hins, Except.map]

/-- Witness for C9's amended theorem: the episode `zeroEp` is persisted verbatim both by
`add_episodes` on `dbSeries` and by `add_media` with `zeroEpPayload`. -/
theorem episodes_persist_verbatim_witness :
    (∃ es, (add_episodes 1 (.arr [zeroEp]) dbSeries).2.tv_episodes =
        dbSeries.tv_episodes ++ es ∧
      List.Forall₂ (epRowMatches 1) [zeroEp] es) ∧
    (∃ es, (add_media zeroEpPayload emptyDB).2.tv_episodes =
        emptyDB.tv_episodes ++ es ∧
      List.Forall₂ (epRowMatches emptyDB.nextMediaId) [zeroEp] es) :=
  ⟨episodes_persist_verbatim.1 1 [zeroEp] dbSeries
     { id := 1, type_ := "tvseries", title := "S", thumbnail_url := none,
       details := none, release_date := none }
     (by decide) rfl (by decide),
   episodes_persist_verbatim.2 zeroEpPayload emptyDB [zeroEp] "Z" rfl rfl rfl
     (by decide)⟩

theorem get_media_tv (mid : Nat) (med : List MediaRow) (eps : List EpisodeRow)
    (mls : List MovieLinkRow) (n1 n2 n3 : Nat) (m : MediaRow)
    (hfind : med.find? (fun r => r.id == mid) = some m)
    (hty : m.type_ ≠ "movie") :
    get_media mid ⟨med, eps, mls, n1, n2, n3⟩ =
      some { media := m, video_links := none
             episodes := some (List.insertionSort epLe
               ((eps.filter (fun e => e.series_id == mid)).map
                 (fun e => { season_number := e.season_number
                             episode_number := e.episode_number
                             title := e.title, video_link := e.video_link }))) } := by
  simp only [get_media, hfind]
  rw [if_neg (by simp [hty])]

theorem get_media_movie (mid : Nat) (med : List MediaRow) (eps : List EpisodeRow)
    (mls : List MovieLinkRow) (n1 n2 n3 : Nat) (m : MediaRow)
    (hfind : med.find? (fun r => r.id == mid) = some m)
    (hty : m.type_ = "movie") :
    get_media mid ⟨med, eps, mls, n1, n2, n3⟩ =
      some { media := m
             video_links := some ((mls.filter (fun l => l.movie_id == mid)).map
               (fun l => { resolution := l.resolution, video_link := l.video_link }))
             episodes := none } := by
  simp only [get_media, hfind]
  rw [if_pos (by simp [hty])]

theorem add_media_tvseries_eq (data : MediaPayload) (db : DB) (ti : String)
    (eps : List EpisodeIn) (es : List EpisodeRow)
    (hty : data.type_ = some "tvseries") (hti : data.title = some ti)
    (heps : data.episodes = some eps)
    (hins : insertEpisodes db.nextMediaId db.nextEpisodeId eps = .ok es) :
    add_media data db =
      (.created (some db.nextMediaId) "Media added successfully",
        { media := db.media ++ [mediaRowOf data db.nextMediaId]
          tv_episodes := db.tv_episodes ++ es
          movie_links := db.movie_links
          nextMediaId := db.nextMediaId + 1
          nextEpisodeId := db.nextEpisodeId + es.length
          nextLinkId := db.nextLinkId }) := by
  rw [add_media_valid_eq data db "tvseries" ti hty hti (Or.inr rfl),
      add_media_children_tv]
  simp only [heps, hins, Except.map, List.append_nil, List.length_nil, Nat.add_zero]

theorem add_media_tvseries_none_eq (data : MediaPayload) (db : DB) (ti : String)
    (hty : data.type_ = some "tvseries") (hti : data.title = some ti)
    (heps : data.episodes = none) :
    add_media data db =
      (.created (some db.nextMediaId) "Media added successfully",
        { media := db.media ++ [mediaRowOf data db.nextMediaId]
          tv_episodes := db.tv_episodes
          movie_links := db.movie_links
          nextMediaId := db.nextMediaId + 1
          nextEpisodeId := db.nextEpisodeId
          nextLinkId := db.nextLinkId }) := by
  rw [add_media_valid_eq data db "tvseries" ti hty hti (Or.inr rfl),
      add_media_children_tv]
  simp only [heps, List.append_nil, List.length_nil, Nat.add_zero]

theorem add_media_movie_eq (data : MediaPayload) (db : DB) (ti : String)
    (links : List LinkIn) (ls : List MovieLinkRow)
    (hty : data.type_ = some "movie") (hti : data.title = some ti)
    (hvl : data.video_links = some links)
    (hins : insertLinks db.nextMediaId db.nextLinkId links = .ok ls) :
    add_media data db =
      (.created (some db.nextMediaId) "Media added successfully",
        { media := db.media ++ [mediaRowOf data db.nextMediaId]
          tv_episodes := db.tv_episodes
          movie_links := db.movie_links ++ ls
          nextMediaId := db.nextMediaId + 1
          nextEpisodeId := db.nextEpisodeId
          nextLinkId := db.nextLinkId + ls.length }) := by
  rw [add_media_valid_eq data db "movie" ti hty hti (Or.inl rfl),
      add_media_children_movie]
  simp only [hvl, hins, Except.map, List.append_nil, List.length_nil, Nat.add_zero]

theorem add_media_movie_none_eq (data : MediaPayload) (db : DB) (ti : String)
    (hty : data.type_ = some "movie") (hti : data.title = some ti)
    (hvl : data.video_links = none) :
    add_media data db =
      (.created (some db.nextMediaId) "Media added successfully",
        { media := db.media ++ [mediaRowOf data db.nextMediaId]
          tv_episodes := db.tv_episodes
          movie_links := db.movie_links
          nextMediaId := db.nextMediaId + 1
          nextEpisodeId := db.nextEpisodeId
          nextLinkId := db.nextLinkId }) := by
  rw [add_media_valid_eq data db "movie" ti hty hti (Or.inl rfl),
      add_media_children_movie]
  simp only [hvl, List.append_nil, List.length_nil, Nat.add_zero]

theorem add_media_shape (data : MediaPayload) (db : DB) :
    (∃ msg, add_media data db = (.badRequest msg, db)) ∨
    (∃ k, add_media data db = (.serverError k, db)) ∨
    (∃ ls es, add_media data db =
        (.created (some db.nextMediaId) "Media added successfully",
          { media := db.media ++ [mediaRowOf data db.nextMediaId]
            tv_episodes := db.tv_episodes ++ es
            movie_links := db.movie_links ++ ls
            nextMediaId := db.nextMediaId + 1
            nextEpisodeId := db.nextEpisodeId + es.length
            nextLinkId := db.nextLinkId + ls.length }) ∧
      matchedChildrenSpec data db.nextMediaId ls es ∧
      ∃ ty ti, data.type_ = some ty ∧ data.title = some ti ∧
        (ty = "movie" ∨ ty = "tvseries") ∧
        add_media_children ty data db = .ok (ls, es)) := by
  cases hty : data.type_ with
  | none => exact Or.inl ⟨"Missing required fields", by simp only [add_media, hty]⟩
  | some ty =>
    cases hti : data.title with
    | none => exact Or.inl ⟨"Missing required fields", by simp only [add_media, hty, hti]⟩
    | some ti =>
      by_cases hcond : (ty != "movie" && ty != "tvseries") = true
      · refine Or.inl ⟨"Invalid media type", ?_⟩
        simp only [add_media, hty, hti]
        rw [if_pos hcond]
      · have hv : ty = "movie" ∨ ty = "tvseries" := by
          by_contra hno
          push_neg at hno
          refine hcond ?_
          simp only [Bool.and_eq_true, bne_iff_ne]
          exact ⟨hno.1, hno.2⟩
        cases hch : add_media_children ty data db with
        | error k =>
          refine Or.inr (Or.inl ⟨k, ?_⟩)
          simp only [add_media, hty, hti]
          rw [if_neg hcond]
          simp only [hch]
        | ok p =>
          obtain ⟨ls, es⟩ := p
          refine Or.inr (Or.inr ⟨ls, es, ?_,
            add_media_children_spec ty data db ls es hty hv hch,
            ty, ti, rfl, rfl, hv, hch⟩)
          simp only [add_media, hty, hti]
          rw [if_neg hcond]
          simp only [hch]

/-- C1: `add_media` is transactionally atomic: whenever the response is not
the 201 success, the database is unchanged (rollback); whenever a payload
passing the type/title validation carries a type-matched child array with an
object missing a required field, the operation fails as a whole; and whenever
the response is the 201 success, the new media row and exactly the rows of
the type-matched child array are committed together in one step. -/
theorem add_media_atomic (data : MediaPayload) (db : DB) :
    ((add_media data db).1.isCreated = false → (add_media data db).2 = db) ∧
    (basicValid data = true → matchedChildBad data = true →
      (add_media data db).1.isCreated = false) ∧
    ((add_media data db).1.isCreated = true →
      ∃ ls es,
        (add_media data db).2 =
          { media := db.media ++ [mediaRowOf data db.nextMediaId]
            tv_episodes := db.tv_episodes ++ es
            movie_links := db.movie_links ++ ls
            nextMediaId := db.nextMediaId + 1
            nextEpisodeId := db.nextEpisodeId + es.length
            nextLinkId := db.nextLinkId + ls.length } ∧
        matchedChildrenSpec data db.nextMediaId ls es) := by
  rcases add_media_shape data db with ⟨msg, hmain⟩ | ⟨k, hmain⟩ |
    ⟨ls, es, hmain, hspec, ty, ti, hty, hti, hv, hch⟩
  · rw [hmain]
    exact ⟨fun _ => rfl, fun _ _ => rfl, fun hcr => Bool.noConfusion hcr⟩
  · rw [hmain]
    exact ⟨fun _ => rfl, fun _ _ => rfl, fun hcr => Bool.noConfusion hcr⟩
  · rw [hmain]
    refine ⟨fun hcr => Bool.noConfusion hcr, ?_, fun _ => ⟨ls, es, rfl, hspec⟩⟩
    intro hb hbad
    obtain ⟨k, hk⟩ := add_media_children_bad ty data db hty hbad
    rw [hch] at hk
    exact Except.noConfusion hk

/-- Witness for C1 at a concrete input: the tvseries payload with one
incomplete episode is not committed at all — the response is not a 201 and
the empty database is unchanged. -/
theorem add_media_atomic_witness :
    (add_media badEpisodePayload emptyDB).1.isCreated = false ∧
    (add_media badEpisodePayload emptyDB).2 = emptyDB :=
  ⟨(add_media_atomic badEpisodePayload emptyDB).2.1 (by decide) (by decide),
   (add_media_atomic badEpisodePayload emptyDB).1
     ((add_media_atomic badEpisodePayload emptyDB).2.1 (by decide) (by decide))⟩

/-- C8: a child array that does not match the payload's type is silently
ignored: an (otherwise valid) tvseries payload carrying any `video_links`
array — or movie payload carrying any `episodes` array — still succeeds,
inserts the media row, and no row derived from the mismatched array reaches
either child table (the mismatched table is untouched, and the matched table
gains rows only from the matched array). -/
theorem add_media_mismatched_ignored (data : MediaPayload) (db : DB)
    (hti : data.title.isSome = true)
    (hcase :
      (data.type_ = some "tvseries" ∧ data.video_links.isSome = true ∧
        (∀ eps, data.episodes = some eps → ∀ e ∈ eps, episodeComplete e = true)) ∨
      (data.type_ = some "movie" ∧ data.episodes.isSome = true ∧
        (∀ links, data.video_links = some links →
          ∀ l ∈ links, linkComplete l = true))) :
    (add_media data db).1.isCreated = true ∧
    (add_media data db).2.media = db.media ++ [mediaRowOf data db.nextMediaId] ∧
    (data.type_ = some "tvseries" →
      (add_media data db).2.movie_links = db.movie_links ∧
      (data.episodes = none → (add_media data db).2.tv_episodes = db.tv_episodes)) ∧
    (data.type_ = some "movie" →
      (add_media data db).2.tv_episodes = db.tv_episodes ∧
      (data.video_links = none →
        (add_media data db).2.movie_links = db.movie_links)) := by
  obtain ⟨ti, hti'⟩ := Option.isSome_iff_exists.mp hti
  rcases hcase with ⟨hty, hvl, heok⟩ | ⟨hty, hepsome, hlok⟩
  · cases heps : data.episodes with
    | none =>
      rw [add_media_tvseries_none_eq data db ti hty hti' heps]
      refine ⟨rfl, rfl, fun _ => ⟨rfl, fun _ => rfl⟩, fun hmov => ?_⟩
      rw [hty] at hmov
      exact absurd hmov (by decide)
    | some eps =>
      obtain ⟨es, hins, -⟩ :=
        insertEpisodes_ok db.nextMediaId eps db.nextEpisodeId (heok eps heps)
      rw [add_media_tvseries_eq data db ti eps es hty hti' heps hins]
      refine ⟨rfl, rfl, fun _ => ⟨rfl, fun habs => ?_⟩, fun hmov => ?_⟩
      · exact absurd habs (by simp)
      · rw [hty] at hmov
        exact absurd hmov (by decide)
  · cases hvl : data.video_links with
    | none =>
      rw [add_media_movie_none_eq data db ti hty hti' hvl]
      refine ⟨rfl, rfl, fun htv => ?_, fun _ => ⟨rfl, fun _ => rfl⟩⟩
      rw [hty] at htv
      exact absurd htv (by decide)
    | some links =>
      obtain ⟨ls, hins, -⟩ :=
        insertLinks_ok db.nextMediaId links db.nextLinkId (hlok links hvl)
      rw [add_media_movie_eq data db ti links ls hty hti' hvl hins]
      refine ⟨rfl, rfl, fun htv => ?_, fun _ => ⟨rfl, fun habs => ?_⟩⟩
      · rw [hty] at htv
        exact absurd htv (by decide)
      · exact absurd habs (by simp)

/-- Witness for C8 at a concrete input: a tvseries payload carrying a
malformed `video_links` array succeeds on the empty database, inserts the
media row, and stores no child row at all. -/
theorem add_media_mismatched_ignored_witness :
    (add_media mismatchedSeriesPayload emptyDB).1.isCreated = true ∧
    (add_media mismatchedSeriesPayload emptyDB).2.media =
      emptyDB.media ++ [mediaRowOf mismatchedSeriesPayload emptyDB.nextMediaId] ∧
    (mismatchedSeriesPayload.type_ = some "tvseries" →
      (add_media mismatchedSeriesPayload emptyDB).2.movie_links =
        emptyDB.movie_links ∧
      (mismatchedSeriesPayload.episodes = none →
        (add_media mismatchedSeriesPayload emptyDB).2.tv_episodes =
          emptyDB.tv_episodes)) ∧
    (mismatchedSeriesPayload.type_ = some "movie" →
      (add_media mismatchedSeriesPayload emptyDB).2.tv_episodes =
        emptyDB.tv_episodes ∧
      (mismatchedSeriesPayload.video_links = none →
        (add_media mismatchedSeriesPayload emptyDB).2.movie_links =
          emptyDB.movie_links)) :=
  add_media_mismatched_ignored mismatchedSeriesPayload emptyDB (by decide)
    (Or.inl ⟨rfl, by decide, fun eps h => nomatch h⟩)

/-- C4: creating a tvseries with N valid episodes (any input order) and then
reading it back returns the flat media row, no `video_links` key, and an
`episodes` collection with exactly N entries sorted ascending by
`(season_number, episode_number)`. -/
theorem tvseries_roundtrip (data : MediaPayload) (db : DB) (eps : List EpisodeIn)
    (hwf : db.wf) (hty : data.type_ = some "tvseries") (hti : data.title.isSome = true)
    (heps : data.episodes = some eps) (hc : ∀ e ∈ eps, episodeComplete e = true) :
    ∃ l, (add_media data db).1 =
        .created (some db.nextMediaId) "Media added successfully" ∧
      get_media db.nextMediaId (add_media data db).2 =
        some { media := mediaRowOf data db.nextMediaId, video_links := none
               episodes := some l } ∧
      l.length = eps.length ∧ List.Sorted epLe l := by
  obtain ⟨ti, hti'⟩ := Option.isSome_iff_exists.mp hti
  obtain ⟨es, hins, hf⟩ := insertEpisodes_ok db.nextMediaId eps db.nextEpisodeId hc
  rw [add_media_tvseries_eq data db ti eps es hty hti' heps hins]
  have hfind : (db.media ++ [mediaRowOf data db.nextMediaId]).find?
      (fun r => r.id == db.nextMediaId) = some (mediaRowOf data db.nextMediaId) :=
    find_new_media db _ hwf rfl
  have htyne : (mediaRowOf data db.nextMediaId).type_ ≠ "movie" := by
    simp [mediaRowOf, hty]
  have hg := get_media_tv db.nextMediaId (db.media ++ [mediaRowOf data db.nextMediaId])
    (db.tv_episodes ++ es) db.movie_links (db.nextMediaId + 1)
    (db.nextEpisodeId + es.length) db.nextLinkId (mediaRowOf data db.nextMediaId)
    hfind htyne
  rw [wf_eps_filter db hwf (epRows_series_id hf)] at hg
  refine ⟨_, rfl, hg, ?_, List.sorted_insertionSort epLe _⟩
  rw [List.length_insertionSort, List.length_map]
  exact hf.length_eq.symm

/-- Witness for C4 at a concrete input: the two-episode payload (episodes
supplied out of order) on the empty database. -/
theorem tvseries_roundtrip_witness :
    ∃ l, (add_media twoEpsPayload emptyDB).1 =
        .created (some emptyDB.nextMediaId) "Media added successfully" ∧
      get_media emptyDB.nextMediaId (add_media twoEpsPayload emptyDB).2 =
        some { media := mediaRowOf twoEpsPayload emptyDB.nextMediaId
               video_links := none, episodes := some l } ∧
      l.length = twoEps.length ∧ List.Sorted epLe l :=
  tvseries_roundtrip twoEpsPayload emptyDB twoEps (by decide) rfl rfl rfl (by decide)

/-- C5: creating a movie with N supplied links and then reading back the id
returned by `add_media` yields exactly N entries under `video_links`, each
equal to the submitted resolution/video_link pair in order, and no
`episodes` key. -/
theorem movie_roundtrip (data : MediaPayload) (db : DB) (links : List LinkIn)
    (hwf : db.wf) (hty : data.type_ = some "movie") (hti : data.title.isSome = true)
    (hvl : data.video_links = some links) (hc : ∀ l ∈ links, linkComplete l = true) :
    ∃ pl, (add_media data db).1 =
        .created (some db.nextMediaId) "Media added successfully" ∧
      get_media db.nextMediaId (add_media data db).2 =
        some { media := mediaRowOf data db.nextMediaId, video_links := some pl
               episodes := none } ∧
      pl.length = links.length ∧
      List.Forall₂ (fun (l : LinkIn) (p : LinkView) =>
        p.resolution = l.resolution ∧ l.video_link = some p.video_link) links pl := by
  obtain ⟨ti, hti'⟩ := Option.isSome_iff_exists.mp hti
  obtain ⟨ls, hins, hf⟩ := insertLinks_ok db.nextMediaId links db.nextLinkId hc
  rw [add_media_movie_eq data db ti links ls hty hti' hvl hins]
  have hfind : (db.media ++ [mediaRowOf data db.nextMediaId]).find?
      (fun r => r.id == db.nextMediaId) = some (mediaRowOf data db.nextMediaId) :=
    find_new_media db _ hwf rfl
  have htyeq : (mediaRowOf data db.nextMediaId).type_ = "movie" := by
    simp [mediaRowOf, hty]
  have hg := get_media_movie db.nextMediaId
    (db.media ++ [mediaRowOf data db.nextMediaId]) db.tv_episodes
    (db.movie_links ++ ls) (db.nextMediaId + 1) db.nextEpisodeId
    (db.nextLinkId + ls.length) (mediaRowOf data db.nextMediaId) hfind htyeq
  rw [wf_links_filter db hwf (linkRows_movie_id hf)] at hg
  refine ⟨_, rfl, hg, ?_, ?_⟩
  · rw [List.length_map]
    exact hf.length_eq.symm
  · exact List.forall₂_map_right_iff.mpr
      (hf.imp (fun a b h => ⟨h.2.1, h.2.2⟩))

/-- Witness for C5 at a concrete input: the two-link movie payload on the
empty database. -/
theorem movie_roundtrip_witness :
    ∃ pl, (add_media movieLinksPayload emptyDB).1 =
        .created (some emptyDB.nextMediaId) "Media added successfully" ∧
      get_media emptyDB.nextMediaId (add_media movieLinksPayload emptyDB).2 =
        some { media := mediaRowOf movieLinksPayload emptyDB.nextMediaId
               video_links := some pl, episodes := none } ∧
      pl.length = twoLinks.length ∧
      List.Forall₂ (fun (l : LinkIn) (p : LinkView) =>
        p.resolution = l.resolution ∧ l.video_link = some p.video_link) twoLinks pl :=
  movie_roundtrip movieLinksPayload emptyDB twoLinks (by decide) rfl rfl rfl (by decide)
